import Mathlib

/-!
Shallow embedding of `src/scripts/locustfile.py`, a Locust load-generation
script for a task-management REST API.

Modelling conventions:
- HTTP responses are given to each handler as explicit arguments
  (status code, parsed fields); the handlers' decisions on them are
  translated directly from the Python source.
- `random.randint` / `random.choice` draws are modelled by `Nat`
  parameters reduced modulo the size of the drawn-from range, so that a
  universally quantified theorem covers every possible draw.
- The Python attribute `task_ids = []` on `TaskAPIUser` (line 33) and on
  `AdminUser` (line 254) is a class attribute: the list object is shared
  by every instance of that class, because the handlers only mutate it
  in place (`append` / `remove`) and never rebind `self.task_ids`.
  The `World` structure therefore holds one list per class.
- Python string truthiness: `if task_id:` is false for `None` and for
  the empty string.
-/

/-- Result classification a handler records with the load runner:
`response.success()`, `response.failure(msg)`, or no call at all
(no request was issued / plain request without `catch_response`). -/
inductive Outcome where
  | success : Outcome
  | failure : String → Outcome
  | noRecord : Outcome
deriving DecidableEq, Repr

/-- Result of one task-handler invocation: the user's `task_ids` list
afterwards, whether an HTTP request was issued, and the recorded outcome. -/
structure StepResult where
  task_ids : List String
  requested : Bool
  outcome : Outcome
deriving DecidableEq, Repr

/-- Python `list.remove(x)`: removes the first occurrence of `x`.
(The callers below only invoke it after an `x in list` membership test,
matching the guarded `self.task_ids.remove(task_id)` calls.) -/
def removeFirst (xs : List String) (x : String) : List String :=
  match xs with
  | [] => []
  | y :: ys => if y = x then ys else y :: removeFirst ys x

/-- How many times `x` occurs in `xs`. -/
def countOcc (x : String) : List String → Nat
  | [] => 0
  | y :: ys => (if y = x then 1 else 0) + countOcc x ys

/-- A create response as the handler sees it: HTTP status, the value of
`response.json().get("task", {}).get("id")` (`none` when the key chain is
absent or the id is null; Python also treats an empty string as falsy),
and `response.text` (used in the failure message). -/
structure CreateResponse where
  status : Nat
  taskId : Option String
  text : String
deriving DecidableEq, Repr

/-- Python truthiness of the extracted `task_id`. -/
def truthyId : Option String → Bool
  | none => false
  | some s => s ≠ ""

/-- `TaskAPIUser.create_task` (locustfile.py lines 76-94), response
handling: on 201, append the returned id to `task_ids` when truthy and
record success; on any other status record failure. Returns the new
`task_ids` and the recorded outcome. -/
def create_task (ids : List String) (resp : CreateResponse) :
    List String × Outcome :=
  if resp.status = 201 then
    let ids' :=
      match resp.taskId with
      | some tid => if tid ≠ "" then ids ++ [tid] else ids
      | none => ids
    (ids', Outcome.success)
  else
    (ids, Outcome.failure
      (s!"Failed to create task: {resp.status} - {resp.text}"))

/-- `TaskAPIUser.update_task` (locustfile.py lines 96-119): no-op when
`task_ids` is empty; otherwise `tid` is the `random.choice` pick and
`st` the response status: 200 records success, 404 removes `tid` from
the list (guarded by membership) and records success, anything else
records failure. -/
def update_task (ids : List String) (tid : String) (st : Nat) : StepResult :=
  if ids.isEmpty then
    { task_ids := ids, requested := false, outcome := Outcome.noRecord }
  else if st = 200 then
    { task_ids := ids, requested := true, outcome := Outcome.success }
  else if st = 404 then
    { task_ids := if tid ∈ ids then removeFirst ids tid else ids,
      requested := true, outcome := Outcome.success }
  else
    { task_ids := ids, requested := true,
      outcome := Outcome.failure (s!"Failed to update task: {st}") }

/-- `TaskAPIUser.delete_task` (locustfile.py lines 121-140): no-op when
`task_ids` is empty; otherwise 200 and 404 both remove the picked `tid`
(guarded by membership) and record success, anything else records
failure. -/
def delete_task (ids : List String) (tid : String) (st : Nat) : StepResult :=
  if ids.isEmpty then
    { task_ids := ids, requested := false, outcome := Outcome.noRecord }
  else if st = 200 then
    { task_ids := if tid ∈ ids then removeFirst ids tid else ids,
      requested := true, outcome := Outcome.success }
  else if st = 404 then
    { task_ids := if tid ∈ ids then removeFirst ids tid else ids,
      requested := true, outcome := Outcome.success }
  else
    { task_ids := ids, requested := true,
      outcome := Outcome.failure (s!"Failed to delete task: {st}") }

/-- The query parameters `list_tasks` sends (after deleting an empty
`status` entry). -/
structure ListParams where
  page : Nat
  limit : Nat
  status : Option String
deriving DecidableEq, Repr

/-- `TaskAPIUser.list_tasks` (locustfile.py lines 55-66), parameter
generation: `page = random.randint(1, 5)` (inclusive),
`limit = random.choice([5, 10, 20])`,
`status = random.choice(["", "pending", "in_progress", "completed"])`,
with an empty `status` removed from the dict. The three `Nat` arguments
model the independent random draws. -/
def list_tasks_params (r1 r2 r3 : Nat) : ListParams :=
  let page := 1 + r1 % 5
  let limit := [5, 10, 20].getD (r2 % 3) 0
  let s := ["", "pending", "in_progress", "completed"].getD (r3 % 4) ""
  { page := page, limit := limit,
    status := if s = "" then none else some s }

/-- `TaskAPIUser.list_tasks` (locustfile.py lines 68-74), response
handling: 200 records success, anything else records failure. -/
def list_tasks_outcome (st : Nat) : Outcome :=
  if st = 200 then Outcome.success
  else Outcome.failure (s!"Failed with status {st}")

/-- What happens when the cleanup loop delete-call for one id runs:
either it returns normally or it raises an exception with message `m`. -/
inductive DeleteResult where
  | ok : DeleteResult
  | exc : String → DeleteResult
deriving DecidableEq, Repr

/-- Observable trace of one `on_stop` run: the ids for which a delete
request was attempted (in order) and the cleanup-failure log lines. -/
structure StopTrace where
  attempts : List String
  logs : List String
deriving DecidableEq, Repr

/-- The `for task_id in self.task_ids` loop of `TaskAPIUser.on_stop`
(locustfile.py lines 47-53): for each id, in order, attempt
`self.client.delete`; a raised exception is caught by the per-id
`try/except`, which prints a log line and lets the loop continue.
`b` gives each delete call's behaviour. -/
def on_stop_loop (b : String → DeleteResult) : List String → StopTrace
  | [] => { attempts := [], logs := [] }
  | tid :: rest =>
    let tr := on_stop_loop b rest
    match b tid with
    | DeleteResult.ok =>
        { attempts := tid :: tr.attempts, logs := tr.logs }
    | DeleteResult.exc m =>
        { attempts := tid :: tr.attempts,
          logs := (s!"Failed to cleanup task {tid}: {m}") :: tr.logs }

/-- `TaskAPIUser.on_stop` (locustfile.py lines 47-53): runs the cleanup
loop over `task_ids`. The loop body never mutates `task_ids`, so the
list after the hook is the list before it. Returns the final `task_ids`
and the trace. -/
def TaskAPIUser_on_stop (ids : List String) (b : String → DeleteResult) :
    List String × StopTrace :=
  (ids, on_stop_loop b ids)

/-- `AdminUser` (locustfile.py lines 248-276) declares a `task_ids`
class attribute but defines no `on_stop` method, so stopping an
`AdminUser` runs the load-testing framework's default hook, which
performs no cleanup: no delete is attempted and `task_ids` is untouched. -/
def AdminUser_on_stop (ids : List String) : List String × StopTrace :=
  (ids, { attempts := [], logs := [] })

/-- `AdminUser.admin_create_task` (locustfile.py lines 256-269): plain
request without `catch_response`; on 201 append the truthy returned id
to the class's `task_ids`. Returns the new list. -/
def admin_create_task (ids : List String) (resp : CreateResponse) :
    List String :=
  if resp.status = 201 then
    match resp.taskId with
    | some tid => if tid ≠ "" then ids ++ [tid] else ids
    | none => ids
  else ids

/-- The four user profiles defined in the script. -/
inductive Profile where
  | taskApi : Profile
  | dbStress : Profile
  | readOnly : Profile
  | admin : Profile
deriving DecidableEq, Repr

/-- A virtual user: its profile class and an instance identity assigned
by the runtime. -/
structure VUser where
  profile : Profile
  uid : Nat
deriving DecidableEq, Repr

/-- The mutable class attributes of the script: `TaskAPIUser.task_ids`
(line 33) and `AdminUser.task_ids` (line 254). Each is one list object
shared by every instance of its class; `DatabaseStressUser` and
`ReadOnlyUser` track no ids. -/
structure World where
  taskApiIds : List String
  adminIds : List String
deriving DecidableEq, Repr

/-- What `self.task_ids` denotes for a user `u`: the class attribute of
`u`'s class (profiles without the attribute own nothing). -/
def ownedIdsOf (w : World) (u : VUser) : List String :=
  match u.profile with
  | Profile.taskApi => w.taskApiIds
  | Profile.admin => w.adminIds
  | _ => []

/-- A create performed by user `u`: `TaskAPIUser.create_task` or
`AdminUser.admin_create_task` acting on the class attribute of `u`'s
class (the other profiles define no create that tracks ids). -/
def world_create (w : World) (u : VUser) (resp : CreateResponse) :
    World × Outcome :=
  match u.profile with
  | Profile.taskApi =>
      let r := create_task w.taskApiIds resp
      ({ w with taskApiIds := r.1 }, r.2)
  | Profile.admin =>
      ({ w with adminIds := admin_create_task w.adminIds resp },
       Outcome.noRecord)
  | _ => (w, Outcome.noRecord)

/-- The run configuration built in the `__main__` block. -/
structure RunConfig where
  host : String
  users : Int
  spawn_rate : Int
  run_time : String
  headless : Bool
deriving DecidableEq, Repr

/-- `os.getenv(k, dflt)` over an environment `env`. -/
def getenv (env : String → Option String) (k dflt : String) : String :=
  (env k).getD dflt

/-- Decimal value of a digit character list, `none` on empty input or a
non-digit character. -/
def natOfDigits (cs : List Char) : Option Nat :=
  if cs.isEmpty then none
  else
    cs.foldl
      (fun acc c =>
        match acc with
        | none => none
        | some n =>
            if '0' ≤ c ∧ c ≤ '9' then some (n * 10 + (c.toNat - 48))
            else none)
      (some 0)

/-- Python `int(s)` on the strings this script feeds it: an optional
sign followed by decimal digits; `none` models the `ValueError` raised
on anything else. -/
def pyInt (s : String) : Option Int :=
  match s.data with
  | '-' :: rest => (natOfDigits rest).map (fun n => -(n : Int))
  | '+' :: rest => (natOfDigits rest).map (fun n => (n : Int))
  | cs => (natOfDigits cs).map (fun n => (n : Int))

/-- Python `str.lower()` on ASCII data. -/
def pyLower (s : String) : String :=
  String.mk (s.data.map
    (fun c => if 'A' ≤ c ∧ c ≤ 'Z' then Char.ofNat (c.toNat + 32) else c))

/-- The `config` dict of the `__main__` block (locustfile.py lines
279-287). `int(...)` is modelled by `pyInt` (`none` models the
`ValueError` Python raises on unparsable input); the `headless` flag is
`value.lower() == "true"`. -/
def resolveConfig (env : String → Option String) : Option RunConfig :=
  match pyInt (getenv env "LOCUST_USERS" "10"),
        pyInt (getenv env "LOCUST_SPAWN_RATE" "2") with
  | some u, some s =>
      some { host := getenv env "LOCUST_HOST" "http://localhost:3000",
             users := u,
             spawn_rate := s,
             run_time := getenv env "LOCUST_RUN_TIME" "5m",
             headless :=
               pyLower (getenv env "LOCUST_HEADLESS" "false") = "true" }
  | _, _ => none

/-- A concrete delete-call behaviour: the call for id "a" raises an
exception with message "boom", every other call returns normally. -/
def bBoom : String → DeleteResult :=
  fun tid => if tid = "a" then DeleteResult.exc "boom" else DeleteResult.ok

/-! ### Helper lemmas -/

theorem countOcc_eq_zero_iff (x : String) (ids : List String) :
    countOcc x ids = 0 ↔ x ∉ ids := by
  induction ids with
  | nil => simp [countOcc]
  | cons y ys ih =>
    by_cases hy : y = x
    · subst hy
      simp [countOcc]
    · simp [countOcc, hy, ih, Ne.symm hy]

theorem countOcc_append (x : String) (as bs : List String) :
    countOcc x (as ++ bs) = countOcc x as + countOcc x bs := by
  induction as with
  | nil => simp [countOcc]
  | cons y ys ih =>
    simp [countOcc, ih]
    omega

theorem countOcc_singleton_self (x : String) : countOcc x [x] = 1 := by
  simp [countOcc]

theorem removeFirst_append_singleton (ids : List String) (x : String)
    (h : x ∉ ids) : removeFirst (ids ++ [x]) x = ids := by
  induction ids with
  | nil => simp [removeFirst]
  | cons y ys ih =>
    have hy : y ≠ x := fun e => h (e ▸ List.mem_cons_self y ys)
    have hys : x ∉ ys := fun hm => h (List.mem_cons_of_mem _ hm)
    simp [removeFirst, hy, ih hys]

theorem not_mem_removeFirst (ids : List String) (x : String)
    (h : countOcc x ids ≤ 1) : x ∉ removeFirst ids x := by
  induction ids with
  | nil => simp [removeFirst]
  | cons y ys ih =>
    by_cases hy : y = x
    · subst hy
      have h0 : countOcc y ys = 0 := by
        simp [countOcc] at h
        omega
      simpa [removeFirst] using (countOcc_eq_zero_iff y ys).mp h0
    · have hys : countOcc x ys ≤ 1 := by
        simp [countOcc, hy] at h
        omega
      simp [removeFirst, hy, Ne.symm hy]
      exact ih hys

theorem append_singleton_isEmpty (ids : List String) (x : String) :
    (ids ++ [x]).isEmpty = false := by
  cases ids <;> rfl

theorem on_stop_loop_attempts (b : String → DeleteResult)
    (ids : List String) : (on_stop_loop b ids).attempts = ids := by
  induction ids with
  | nil => rfl
  | cons tid rest ih =>
    simp only [on_stop_loop]
    cases b tid <;> simp [ih]

theorem on_stop_loop_logs_mem (b : String → DeleteResult)
    (ids : List String) (tid m : String) (hmem : tid ∈ ids)
    (hb : b tid = DeleteResult.exc m) :
    (s!"Failed to cleanup task {tid}: {m}") ∈ (on_stop_loop b ids).logs := by
  induction ids with
  | nil => cases hmem
  | cons y rest ih =>
    rcases List.mem_cons.mp hmem with he | hrest
    · subst he
      simp only [on_stop_loop, hb]
      exact List.mem_cons_self _ _
    · simp only [on_stop_loop]
      cases hby : b y <;> simp [ih hrest]

/-! ### Claim theorems -/

/-- C3: if a user creates a task receiving id "t1" via HTTP 201 and then
invokes update_task on "t1" and the server responds 404, then after the
handler runs "t1" is removed from the user's owned-ID set and the
request is recorded as a success, not a failure. (`h` says the server
returned a fresh id, as in the scenario.) -/
theorem create_then_update_404_removes_id (ids : List String)
    (h : "t1" ∉ ids) :
    (create_task ids { status := 201, taskId := some "t1", text := "" }).2
        = Outcome.success ∧
    update_task
        (create_task ids { status := 201, taskId := some "t1", text := "" }).1
        "t1" 404
      = { task_ids := ids, requested := true, outcome := Outcome.success } ∧
    "t1" ∉ (update_task
        (create_task ids { status := 201, taskId := some "t1", text := "" }).1
        "t1" 404).task_ids := by
  have hc : (create_task ids
      { status := 201, taskId := some "t1", text := "" }).1 = ids ++ ["t1"] := by
    simp [create_task]
  have hmem : "t1" ∈ ids ++ ["t1"] := by simp
  have hupd : update_task (ids ++ ["t1"]) "t1" 404
      = { task_ids := ids, requested := true, outcome := Outcome.success } := by
    simp [update_task, append_singleton_isEmpty, hmem,
      removeFirst_append_singleton ids "t1" h]
  refine ⟨by simp [create_task], ?_, ?_⟩
  · rw [hc, hupd]
  · rw [hc, hupd]
    exact h

/-- C3 witness: the scenario at the concrete initial list ["a", "b"]. -/
theorem create_then_update_404_removes_id_witness :
    (create_task ["a", "b"] { status := 201, taskId := some "t1", text := "" }).2
        = Outcome.success ∧
    update_task
        (create_task ["a", "b"] { status := 201, taskId := some "t1", text := "" }).1
        "t1" 404
      = { task_ids := ["a", "b"], requested := true,
          outcome := Outcome.success } ∧
    "t1" ∉ (update_task
        (create_task ["a", "b"] { status := 201, taskId := some "t1", text := "" }).1
        "t1" 404).task_ids :=
  create_then_update_404_removes_id ["a", "b"] (by decide)

/-- C4 counterexample: with prior contents ["t1", "t1"], a delete of
"t1" answered 200 leaves one occurrence of "t1" in the tracked list, so
the chosen ID is not absent afterwards. -/
theorem delete_duplicate_counterexample :
    delete_task ["t1", "t1"] "t1" 200
      = { task_ids := ["t1"], requested := true,
          outcome := Outcome.success } ∧
    "t1" ∈ (delete_task ["t1", "t1"] "t1" 200).task_ids := by
  constructor
  · simp [delete_task, removeFirst]
  · simp [delete_task, removeFirst]

/-- C4 (amended): on a 200 or 404 delete response, the handler removes
the first occurrence of the chosen ID; hence whenever the ID occurred at
most once in the prior list, it is absent afterwards. -/
theorem delete_200_or_404_removes_unique_id (ids : List String)
    (tid : String) (st : Nat) (hst : st = 200 ∨ st = 404)
    (hcount : countOcc tid ids ≤ 1) :
    tid ∉ (delete_task ids tid st).task_ids := by
  by_cases hemp : ids.isEmpty
  · have : ids = [] := by
      cases ids with
      | nil => rfl
      | cons y ys => simp [List.isEmpty] at hemp
    subst this
    simp [delete_task]
  · have hnotmem : tid ∉ ids → tid ∉ (if tid ∈ ids then removeFirst ids tid else ids) := by
      intro hn
      simp [hn]
    by_cases hm : tid ∈ ids
    · rcases hst with h | h <;>
        simp [delete_task, hemp, h, hm] <;>
        exact not_mem_removeFirst ids tid hcount
    · rcases hst with h | h <;>
        simp [delete_task, hemp, h, hm]

/-- C4 witness: a concrete delete with a 404 response on a list holding
the chosen ID once. -/
theorem delete_200_or_404_removes_unique_id_witness :
    "t1" ∉ (delete_task ["a", "t1"] "t1" 404).task_ids :=
  delete_200_or_404_removes_unique_id ["a", "t1"] "t1" 404
    (Or.inr rfl) (by decide)

/-- C5: on a user whose owned-ID list is empty, update_task and
delete_task issue no HTTP request, record no success or failure, and
leave the state unchanged, for every possible random pick and response
status. -/
theorem update_delete_noop_on_empty (tid : String) (st : Nat) :
    update_task [] tid st
      = { task_ids := [], requested := false, outcome := Outcome.noRecord } ∧
    delete_task [] tid st
      = { task_ids := [], requested := false, outcome := Outcome.noRecord } :=
  ⟨rfl, rfl⟩

/-- C7: with every configuration environment variable unset, the run
configuration resolves to host "http://localhost:3000", users 10,
spawn_rate 2, run_time "5m", and headless false. -/
theorem default_run_config :
    resolveConfig (fun _ => none)
      = some { host := "http://localhost:3000", users := 10,
               spawn_rate := 2, run_time := "5m", headless := false } := by
  decide

/-- C9: the on_stop cleanup hook never removes any ID from the tracked
owned-ID list — afterwards the list is exactly what it was when the hook
began, whatever each delete call did. -/
theorem on_stop_preserves_task_ids (ids : List String)
    (b : String → DeleteResult) : (TaskAPIUser_on_stop ids b).1 = ids :=
  rfl

/-- C10: a create response with HTTP status 201 whose JSON body lacks a
truthy task.id is still recorded as a success and leaves the owned-ID
list unchanged. -/
theorem create_201_without_truthy_id (ids : List String)
    (resp : CreateResponse) (h1 : resp.status = 201)
    (h2 : truthyId resp.taskId = false) :
    create_task ids resp = (ids, Outcome.success) := by
  cases resp with
  | mk st tid text =>
    cases tid with
    | none => simp_all [create_task, truthyId]
    | some s => simp_all [create_task, truthyId]

/-- C10 witness: a 201 response whose task.id is the empty string
(falsy in Python). -/
theorem create_201_without_truthy_id_witness :
    create_task ["x"] { status := 201, taskId := some "", text := "ok" }
      = (["x"], Outcome.success) :=
  create_201_without_truthy_id ["x"]
    { status := 201, taskId := some "", text := "ok" } rfl (by decide)

/-- C1 counterexample: `task_ids` is a class attribute shared by every
TaskAPIUser instance, so after virtual user 0's successful create of
"t1", the distinct virtual user 1's owned-ID set also contains "t1" —
the ID is not confined to the set of the user that issued the create. -/
theorem shared_list_create_counterexample :
    ({ profile := Profile.taskApi, uid := 0 } : VUser)
        ≠ { profile := Profile.taskApi, uid := 1 } ∧
    (world_create { taskApiIds := [], adminIds := [] }
        { profile := Profile.taskApi, uid := 0 }
        { status := 201, taskId := some "t1", text := "" }).2
      = Outcome.success ∧
    "t1" ∈ ownedIdsOf
        (world_create { taskApiIds := [], adminIds := [] }
          { profile := Profile.taskApi, uid := 0 }
          { status := 201, taskId := some "t1", text := "" }).1
        { profile := Profile.taskApi, uid := 1 } := by
  refine ⟨by decide, rfl, by decide⟩

/-- C1 (amended): a successful create with a fresh truthy returned ID
appends the ID exactly once to the class-level list shared by all users
of the creating user's profile, records success, and leaves the other
profile's list unchanged; the ID then appears (once) in the owned-ID
set of every user of that profile, not only the issuing user's. -/
theorem create_appends_to_shared_profile_list (w : World) (n : Nat)
    (tid text : String) (h1 : tid ≠ "") (h2 : tid ∉ w.taskApiIds) :
    world_create w { profile := Profile.taskApi, uid := n }
        { status := 201, taskId := some tid, text := text }
      = ({ taskApiIds := w.taskApiIds ++ [tid], adminIds := w.adminIds },
         Outcome.success) ∧
    countOcc tid (w.taskApiIds ++ [tid]) = 1 ∧
    (∀ m : Nat, tid ∈ ownedIdsOf
        { taskApiIds := w.taskApiIds ++ [tid], adminIds := w.adminIds }
        { profile := Profile.taskApi, uid := m }) := by
  refine ⟨?_, ?_, ?_⟩
  · simp [world_create, create_task, h1]
  · rw [countOcc_append, (countOcc_eq_zero_iff tid w.taskApiIds).mpr h2,
      countOcc_singleton_self]
  · intro m
    simp [ownedIdsOf]

/-- C1 witness: the amended statement at a concrete world and id. -/
theorem create_appends_to_shared_profile_list_witness :
    world_create { taskApiIds := ["x"], adminIds := [] }
        { profile := Profile.taskApi, uid := 0 }
        { status := 201, taskId := some "t1", text := "" }
      = ({ taskApiIds := ["x", "t1"], adminIds := [] }, Outcome.success) ∧
    countOcc "t1" (["x"] ++ ["t1"]) = 1 ∧
    (∀ m : Nat, "t1" ∈ ownedIdsOf
        { taskApiIds := ["x"] ++ ["t1"], adminIds := [] }
        { profile := Profile.taskApi, uid := m }) :=
  create_appends_to_shared_profile_list
    { taskApiIds := ["x"], adminIds := [] } 0 "t1" "" (by decide) (by decide)

/-- C2 counterexample: AdminUser tracks owned task IDs but defines no
on_stop hook, so when the runtime stops an AdminUser holding "t1" no
delete call is attempted for it. -/
theorem admin_stop_no_cleanup_counterexample :
    (AdminUser_on_stop ["t1"]).2.attempts = [] ∧
    "t1" ∉ (AdminUser_on_stop ["t1"]).2.attempts :=
  ⟨rfl, by decide⟩

/-- C2 (amended): on user destruction, only the TaskAPIUser profile's
on_stop hook attempts a delete call for each ID in the tracked list;
the AdminUser profile also tracks owned IDs but defines no stop hook,
so no delete is attempted when it stops. -/
theorem stop_cleanup_per_profile :
    (∀ ids b, (TaskAPIUser_on_stop ids b).2.attempts = ids) ∧
    (∀ ids, (AdminUser_on_stop ids).2.attempts = []) :=
  ⟨fun ids b => on_stop_loop_attempts b ids, fun _ => rfl⟩

/-- C6: when a TaskAPIUser stops, a delete is attempted for every ID in
its tracked list whatever each call does, and an exception raised while
deleting one ID is caught and logged per-ID without preventing the
remaining attempts (the hook is a total function: it always completes). -/
theorem on_stop_attempts_all_and_logs (ids : List String)
    (b : String → DeleteResult) :
    (TaskAPIUser_on_stop ids b).2.attempts = ids ∧
    ∀ tid m, tid ∈ ids → b tid = DeleteResult.exc m →
      (s!"Failed to cleanup task {tid}: {m}")
        ∈ (TaskAPIUser_on_stop ids b).2.logs :=
  ⟨on_stop_loop_attempts b ids,
   fun tid m hmem hb => on_stop_loop_logs_mem b ids tid m hmem hb⟩

/-- C6 witness: a cleanup pass over ["a", "b"] where deleting "a"
raises: both deletes are still attempted and the failure is logged. -/
theorem on_stop_attempts_all_and_logs_witness :
    (TaskAPIUser_on_stop ["a", "b"] bBoom).2.attempts = ["a", "b"] ∧
    "Failed to cleanup task a: boom"
      ∈ (TaskAPIUser_on_stop ["a", "b"] bBoom).2.logs :=
  ⟨(on_stop_attempts_all_and_logs ["a", "b"] bBoom).1,
   (on_stop_attempts_all_and_logs ["a", "b"] bBoom).2 "a" "boom"
     (by decide) (by decide)⟩

/-- C8: every list_tasks invocation, for every possible random draw,
sends a page in 1..5, a limit in {5, 10, 20}, and a status that is
either omitted or one of pending / in_progress / completed; the request
is recorded as a success exactly when the HTTP status is 200 and as a
failure for any other status. -/
theorem list_tasks_randomized_request (r1 r2 r3 st : Nat) :
    (1 ≤ (list_tasks_params r1 r2 r3).page ∧
      (list_tasks_params r1 r2 r3).page ≤ 5) ∧
    ((list_tasks_params r1 r2 r3).limit = 5 ∨
      (list_tasks_params r1 r2 r3).limit = 10 ∨
      (list_tasks_params r1 r2 r3).limit = 20) ∧
    ((list_tasks_params r1 r2 r3).status = none ∨
      (list_tasks_params r1 r2 r3).status = some "pending" ∨
      (list_tasks_params r1 r2 r3).status = some "in_progress" ∨
      (list_tasks_params r1 r2 r3).status = some "completed") ∧
    (list_tasks_outcome st = Outcome.success ↔ st = 200) ∧
    (list_tasks_outcome st = Outcome.success ∨
      list_tasks_outcome st = Outcome.failure
        (s!"Failed with status {st}")) := by
  refine ⟨?_, ?_, ?_, ?_, ?_⟩
  · simp only [list_tasks_params]
    omega
  · have h : r2 % 3 = 0 ∨ r2 % 3 = 1 ∨ r2 % 3 = 2 := by omega
    rcases h with h | h | h <;> simp [list_tasks_params, h]
  · have h : r3 % 4 = 0 ∨ r3 % 4 = 1 ∨ r3 % 4 = 2 ∨ r3 % 4 = 3 := by omega
    rcases h with h | h | h | h <;> simp [list_tasks_params, h]
  · by_cases h : st = 200 <;> simp [list_tasks_outcome, h]
  · by_cases h : st = 200 <;> simp [list_tasks_outcome, h]
